import Mathlib

/-!
Verification of the consensus dispatch component
(node/src/components/consensus.rs) and the host-function cost table
(execution_engine/src/shared/host_function_costs.rs) of the casper-node
repository, in a shallow embedding. Rust machine integers are modelled as
`Nat` with explicit bounds where they matter; fallible operations return
`Option`.
-/

namespace Casper

/-- Era identifier (`EraId`, a numeric newtype), modelled as `Nat`. -/
abbrev EraId := Nat

/-- Timestamp, opaque to the dispatch logic, modelled as `Nat`. -/
abbrev Timestamp := Nat

/-- Validator public key, opaque to the dispatch logic, modelled by its bytes. -/
abbrev PublicKey := List Nat

/-- Mapping from validator public key to weight
(`casper_types::auction::ValidatorWeights`), modelled as an association list. -/
abbrev ValidatorWeights := List (PublicKey × Nat)

/-- Proto-block, opaque to the dispatch logic (only its identity matters
there), modelled as `Nat`. -/
abbrev ProtoBlock := Nat

/-- Modelled from the spec: `BlockContext` (era, timestamp, ancestry pointer);
its definition lives in consensus_protocol.rs, which is not under src/. The
dispatch only passes it through. -/
structure BlockContext where
  era_id : EraId
  timestamp : Timestamp
  ancestor : Nat
  deriving DecidableEq

/-- Block header. The dispatch only passes it through and, in the fatal arm,
reads its era id for the error log. Other fields are irrelevant here. -/
structure BlockHeader where
  era_id : EraId
  deriving DecidableEq

/-- Error type of the validator-weights lookup
(`casper_execution_engine::core::engine_state::era_validators::GetEraValidatorsError`),
opaque to the dispatch, modelled with an opaque numeric payload. -/
inductive GetEraValidatorsError where
  | rootNotFound
  | other (code : Nat)
  deriving DecidableEq

/-- `ConsensusMessage` (consensus.rs lines 43-50): a protocol message with an
opaque byte payload scoped to one era, or a request for evidence against the
given validator. -/
inductive ConsensusMessage where
  | Protocol (era_id : EraId) (payload : List Nat)
  | EvidenceRequest (era_id : EraId) (pub_key : PublicKey)
  deriving DecidableEq

/-- Modelled from the spec: `requests::ConsensusRequest` is not under src/.
The dispatch in consensus.rs matches exactly the
`HandleLinearBlock(block_header, responder)` variant with no catch-all, so the
type has exactly this one variant; the responder is opaque. -/
inductive ConsensusRequest where
  | HandleLinearBlock (block_header : BlockHeader) (responder : Nat)
  deriving DecidableEq

/-- Consensus component event (`Event<I>`, consensus.rs lines 53-84), with `I`
the node-id type. -/
inductive Event (I : Type) where
  | MessageReceived (sender : I) (msg : ConsensusMessage)
  | Timer (era_id : EraId) (timestamp : Timestamp)
  | NewProtoBlock (era_id : EraId) (proto_block : ProtoBlock) (block_context : BlockContext)
  | ConsensusRequest (req : Casper.ConsensusRequest)
  | AcceptProtoBlock (era_id : EraId) (proto_block : ProtoBlock)
  | InvalidProtoBlock (era_id : EraId) (sender : I) (proto_block : ProtoBlock)
  | GetValidatorsResponse (block_header : BlockHeader)
      (get_validators_result : Except GetEraValidatorsError (Option ValidatorWeights))

/-- Result of one `handle_event` call of the `Component` impl for
`EraSupervisor` (consensus.rs lines 188-230): which handler of the handling
wrapper is invoked with which arguments, or a panic (the code first logs an
error, then panics). -/
inductive DispatchResult (I : Type) where
  | handle_timer (era_id : EraId) (timestamp : Timestamp)
  | handle_message (sender : I) (msg : ConsensusMessage)
  | handle_new_proto_block (era_id : EraId) (proto_block : ProtoBlock)
      (block_context : BlockContext)
  | handle_linear_chain_block (block_header : BlockHeader) (responder : Nat)
  | handle_accept_proto_block (era_id : EraId) (proto_block : ProtoBlock)
  | handle_invalid_proto_block (era_id : EraId) (sender : I) (proto_block : ProtoBlock)
  | handle_get_validators_response (block_header : BlockHeader)
      (validator_weights : ValidatorWeights)
  | panicked
  deriving DecidableEq

/-- `EraSupervisor::handle_event` (consensus.rs lines 188-230): dispatch of
each event to the corresponding handler of the handling wrapper. The
`GetValidatorsResponse` arm matches on the contained result and panics unless
it is `Ok(Some(result))`. -/
def handle_event {I : Type} : Event I → DispatchResult I
  | .Timer era_id timestamp => .handle_timer era_id timestamp
  | .MessageReceived sender msg => .handle_message sender msg
  | .NewProtoBlock era_id proto_block block_context =>
      .handle_new_proto_block era_id proto_block block_context
  | .ConsensusRequest (.HandleLinearBlock block_header responder) =>
      .handle_linear_chain_block block_header responder
  | .AcceptProtoBlock era_id proto_block => .handle_accept_proto_block era_id proto_block
  | .InvalidProtoBlock era_id sender proto_block =>
      .handle_invalid_proto_block era_id sender proto_block
  | .GetValidatorsResponse block_header get_validators_result =>
      match get_validators_result with
      | .ok (some result) => .handle_get_validators_response block_header result
      | _ => .panicked

/-- One token of the serde data model. The derived `Serialize`/`Deserialize`
impls for `ConsensusMessage` exchange an externally tagged variant index, the
numeric era id, and the raw bytes of the byte-vector or key field. -/
inductive SerdeToken where
  | variantTag (idx : Nat)
  | uint (n : Nat)
  | byteSeq (bs : List Nat)
  deriving DecidableEq

/-- Serialization of `ConsensusMessage` as produced by the derived `Serialize`
impl, in the serde data model: the variant tag, the era id, then the payload
bytes (for `Protocol`) or the public key bytes (for `EvidenceRequest`),
carried verbatim. -/
def ConsensusMessage.serialize : ConsensusMessage → List SerdeToken
  | .Protocol era_id payload => [.variantTag 0, .uint era_id, .byteSeq payload]
  | .EvidenceRequest era_id pub_key => [.variantTag 1, .uint era_id, .byteSeq pub_key]

/-- Deserialization of `ConsensusMessage` as performed by the derived
`Deserialize` impl: reads the variant tag and then the fields of that variant,
leaving the remaining input untouched; anything else is rejected. -/
def ConsensusMessage.deserialize : List SerdeToken → Option (ConsensusMessage × List SerdeToken)
  | .variantTag 0 :: .uint era_id :: .byteSeq payload :: rest =>
      some (.Protocol era_id payload, rest)
  | .variantTag 1 :: .uint era_id :: .byteSeq pub_key :: rest =>
      some (.EvidenceRequest era_id pub_key, rest)
  | _ => none

/-- Modelled from the spec: the `EraSupervisor` state (era_supervisor.rs is
not under src/). It owns the live protocol instances keyed by `EraId` and the
cross-era fault-evidence index keyed by (era, validator). The per-era instance
state is opaque, a type parameter `A`. -/
structure EraSupervisor (A : Type) where
  active_eras : List (EraId × A)
  evidence : List (EraId × PublicKey)
  deriving DecidableEq

/-- Look up the live protocol instance for an era, if any. -/
def EraSupervisor.find_era {A : Type} (s : EraSupervisor A) (era_id : EraId) : Option A :=
  s.active_eras.lookup era_id

/-- Modelled from the spec: retiring an era removes its live instance; the
cross-era evidence index is retained so that evidence requests for older eras
inside the bonded window can still be answered. -/
def EraSupervisor.retire_era {A : Type} (s : EraSupervisor A) (era_id : EraId) :
    EraSupervisor A :=
  { active_eras := s.active_eras.filter (fun p => p.1 != era_id), evidence := s.evidence }

/-- Effects returned by the supervisor: an effect forwarded from a protocol
instance (the instance effect type is opaque, a type parameter `E`), or a
reply carrying known evidence against a validator in some era. -/
inductive SupEffect (E : Type) where
  | fromInstance (fx : E)
  | sendEvidence (era_id : EraId) (pub_key : PublicKey)
  deriving DecidableEq

/-- Modelled from the spec: `handle_timer(era_id, timestamp)` looks up the
instance for `era_id`; if absent (already retired or not yet created), the
timer is a no-op; otherwise it forwards to the instance (whose timer
transition `f` is a parameter, returning the updated instance and its
effects) and returns the effects. -/
def EraSupervisor.handle_timer {A E : Type} (f : A → Timestamp → A × List E)
    (s : EraSupervisor A) (era_id : EraId) (timestamp : Timestamp) :
    EraSupervisor A × List (SupEffect E) :=
  match s.find_era era_id with
  | none => (s, [])
  | some era =>
      let r := f era timestamp
      ({ active_eras := s.active_eras.map (fun p => if p.1 == era_id then (era_id, r.1) else p),
         evidence := s.evidence },
       r.2.map SupEffect.fromInstance)

/-- Modelled from the spec: `handle_message(sender, msg)`. For
`Protocol{era_id, payload}` the payload is forwarded to the instance for
`era_id` (whose message transition `g` is a parameter); messages for unknown
or retired eras are silently dropped. For `EvidenceRequest{era_id, pub_key}`
the evidence index is searched for any era up to `era_id` with recorded
evidence against `pub_key`; known evidence is returned if found, otherwise no
action is taken. -/
def EraSupervisor.handle_message {A E I : Type} (g : A → List Nat → A × List E)
    (s : EraSupervisor A) (_sender : I) (msg : ConsensusMessage) :
    EraSupervisor A × List (SupEffect E) :=
  match msg with
  | .Protocol era_id payload =>
      match s.find_era era_id with
      | none => (s, [])
      | some era =>
          let r := g era payload
          ({ active_eras :=
               s.active_eras.map (fun p => if p.1 == era_id then (era_id, r.1) else p),
             evidence := s.evidence },
           r.2.map SupEffect.fromInstance)
  | .EvidenceRequest era_id pub_key =>
      match s.evidence.find? (fun p => decide (p.1 ≤ era_id) && (p.2 == pub_key)) with
      | some p => (s, [SupEffect.sendEvidence p.1 p.2])
      | none => (s, [])

theorem lookup_filter_ne {A : Type} (e : Nat) (l : List (Nat × A)) :
    (l.filter (fun p => p.1 != e)).lookup e = none := by
  induction l with
  | nil => rfl
  | cons a t ih =>
      by_cases h : a.1 = e
      · simp [List.filter_cons, h, ih]
      · have hne : (e == a.1) = false := beq_eq_false_iff_ne.mpr (fun he => h he.symm)
        simp [List.filter_cons, List.lookup, h, ih, bne, hne]
        exact fun x b _ hx he => hx he.symm

/-- Retiring an era removes its live instance from the lookup. -/
theorem find_era_retire {A : Type} (s : EraSupervisor A) (era_id : EraId) :
    (s.retire_era era_id).find_era era_id = none :=
  lookup_filter_ne era_id s.active_eras

/-- C1: for every `GetValidatorsResponse` event, `handle_event` aborts (panics,
after logging an error) if and only if the contained result is not
`Ok(Some(validator_weights))`; when it is `Ok(Some(validator_weights))`, the
event is forwarded to `handle_get_validators_response` with the switch block
header and those weights, and no panic occurs. -/
theorem getValidatorsResponse_fatal_iff {I : Type} (bh : BlockHeader)
    (res : Except GetEraValidatorsError (Option ValidatorWeights)) :
    (handle_event (I := I) (Event.GetValidatorsResponse bh res) = DispatchResult.panicked ↔
      ∀ w, res ≠ Except.ok (some w)) ∧
    (∀ w, res = Except.ok (some w) →
      handle_event (I := I) (Event.GetValidatorsResponse bh res) =
        DispatchResult.handle_get_validators_response bh w) := by
  constructor
  · constructor
    · intro hp w hw
      subst hw
      simp [handle_event] at hp
    · intro hne
      match res with
      | .ok (some w) => exact absurd rfl (hne w)
      | .ok none => rfl
      | .error e => rfl
  · intro w hw
    subst hw
    rfl

/-- Witness for C1 at a concrete successful lookup result. -/
theorem getValidatorsResponse_fatal_iff_witness :
    handle_event (I := Nat)
        (Event.GetValidatorsResponse { era_id := 3 } (Except.ok (some [([1], 2)]))) =
      DispatchResult.handle_get_validators_response { era_id := 3 } [([1], 2)] :=
  (getValidatorsResponse_fatal_iff { era_id := 3 } (Except.ok (some [([1], 2)]))).2
    [([1], 2)] rfl

/-- C2 counterexample: at the concrete input of a switch block header for era 0
and result `Ok(None)` (the explicit not-yet-available result), the dispatch
panics — contrary to the claim that `Ok(None)` does not abort the node. -/
theorem getValidatorsResponse_ok_none_aborts :
    handle_event (I := Nat) (Event.GetValidatorsResponse { era_id := 0 } (Except.ok none)) =
      DispatchResult.panicked := rfl

/-- C2 amended: every non-`Ok(Some)` result — a typed lookup error and also the
explicit not-yet-available `Ok(None)` — is treated as the fatal collaborator
failure that aborts node operation; in particular `Ok(None)` is not treated as
a success (it is never forwarded to the success handler), but it does abort
the node just like an error. -/
theorem getValidatorsResponse_error_and_none_abort {I : Type} (bh : BlockHeader)
    (e : GetEraValidatorsError) :
    handle_event (I := I) (Event.GetValidatorsResponse bh (Except.error e)) =
      DispatchResult.panicked ∧
    handle_event (I := I) (Event.GetValidatorsResponse bh (Except.ok none)) =
      DispatchResult.panicked :=
  ⟨rfl, rfl⟩

/-- C3: `handle_event` handles every `Event` variant exhaustively (it is a
total function on the closed event type) and routes each variant to exactly
the corresponding handler: `Timer` to `handle_timer(era_id, timestamp)`,
`MessageReceived` to `handle_message(sender, msg)`, `NewProtoBlock` to
`handle_new_proto_block`, `ConsensusRequest(HandleLinearBlock)` to
`handle_linear_chain_block`, `AcceptProtoBlock` to
`handle_accept_proto_block`, `InvalidProtoBlock` to
`handle_invalid_proto_block(era_id, sender, proto_block)`, and a successful
`GetValidatorsResponse` to `handle_get_validators_response`. -/
theorem handle_event_routes {I : Type} :
    (∀ (e : EraId) (ts : Timestamp),
      handle_event (I := I) (Event.Timer e ts) = DispatchResult.handle_timer e ts) ∧
    (∀ (s : I) (m : ConsensusMessage),
      handle_event (Event.MessageReceived s m) = DispatchResult.handle_message s m) ∧
    (∀ (e : EraId) (pb : ProtoBlock) (c : BlockContext),
      handle_event (I := I) (Event.NewProtoBlock e pb c) =
        DispatchResult.handle_new_proto_block e pb c) ∧
    (∀ (bh : BlockHeader) (r : Nat),
      handle_event (I := I)
          (Event.ConsensusRequest (ConsensusRequest.HandleLinearBlock bh r)) =
        DispatchResult.handle_linear_chain_block bh r) ∧
    (∀ (e : EraId) (pb : ProtoBlock),
      handle_event (I := I) (Event.AcceptProtoBlock e pb) =
        DispatchResult.handle_accept_proto_block e pb) ∧
    (∀ (e : EraId) (s : I) (pb : ProtoBlock),
      handle_event (Event.InvalidProtoBlock e s pb) =
        DispatchResult.handle_invalid_proto_block e s pb) ∧
    (∀ (bh : BlockHeader) (w : ValidatorWeights),
      handle_event (I := I) (Event.GetValidatorsResponse bh (Except.ok (some w))) =
        DispatchResult.handle_get_validators_response bh w) :=
  ⟨fun _ _ => rfl, fun _ _ => rfl, fun _ _ _ => rfl, fun _ _ => rfl, fun _ _ => rfl,
   fun _ _ _ => rfl, fun _ _ => rfl⟩

/-- C4: the `ConsensusMessage` type has exactly two variants, and every value
is one of the two shapes: `Protocol` with an era id and an opaque byte
payload, or `EvidenceRequest` with an era id and a validator public key. -/
theorem consensusMessage_shape (m : ConsensusMessage) :
    (∃ era_id payload, m = ConsensusMessage.Protocol era_id payload) ∨
    (∃ era_id pub_key, m = ConsensusMessage.EvidenceRequest era_id pub_key) := by
  cases m with
  | Protocol e p => exact Or.inl ⟨e, p, rfl⟩
  | EvidenceRequest e k => exact Or.inr ⟨e, k, rfl⟩

/-- C5: a `Timer` event for an era with no live protocol instance is a no-op:
the supervisor state is unchanged and the list of effects is empty; in
particular, after an era is retired (as happens once its instance reaches
`EraEnd`), a timer for that era produces no effects. -/
theorem handle_timer_no_instance_noop {A E : Type} (f : A → Timestamp → A × List E)
    (s : EraSupervisor A) (era_id : EraId) (timestamp : Timestamp)
    (h : s.find_era era_id = none) :
    s.handle_timer f era_id timestamp = (s, []) ∧
    (s.retire_era era_id).handle_timer f era_id timestamp = (s.retire_era era_id, []) := by
  constructor
  · unfold EraSupervisor.handle_timer
    rw [h]
  · unfold EraSupervisor.handle_timer
    rw [find_era_retire]

/-- Witness for C5 at a concrete supervisor holding only era 3, with a timer
for the absent era 5. -/
theorem handle_timer_no_instance_noop_witness :
    EraSupervisor.handle_timer (fun (a : Nat) (_ : Timestamp) => (a + 1, [a]))
        { active_eras := [(3, 7)], evidence := [] } 5 11 =
      ({ active_eras := [(3, 7)], evidence := [] }, []) :=
  (handle_timer_no_instance_noop (fun (a : Nat) (_ : Timestamp) => (a + 1, [a]))
    { active_eras := [(3, 7)], evidence := [] } 5 11 rfl).1

/-- C6: a `Protocol{era_id, payload}` message whose era has no live protocol
instance (unknown or retired era) is silently dropped by `handle_message`: the
supervisor state is unchanged, no effects are produced, and no panic occurs
(the model is a total function). -/
theorem handle_message_unknown_era_drops {A E I : Type} (g : A → List Nat → A × List E)
    (s : EraSupervisor A) (sender : I) (era_id : EraId) (payload : List Nat)
    (h : s.find_era era_id = none) :
    s.handle_message g sender (ConsensusMessage.Protocol era_id payload) = (s, []) := by
  simp only [EraSupervisor.handle_message]
  rw [h]

/-- Witness for C6 at a concrete supervisor holding only era 1, receiving a
protocol message for the absent era 2. -/
theorem handle_message_unknown_era_drops_witness :
    EraSupervisor.handle_message (fun (a : Nat) (p : List Nat) => (a + p.length, [a]))
        { active_eras := [(1, 5)], evidence := [(0, [3])] } (7 : Nat)
        (ConsensusMessage.Protocol 2 [9]) =
      ({ active_eras := [(1, 5)], evidence := [(0, [3])] }, []) :=
  handle_message_unknown_era_drops (fun (a : Nat) (p : List Nat) => (a + p.length, [a]))
    { active_eras := [(1, 5)], evidence := [(0, [3])] } (7 : Nat) 2 [9] rfl

/-- C7: every `ConsensusMessage::Protocol` value round-trips through the
derived serialization unchanged: deserializing the serialization (followed by
any remaining input) yields the original message — with the byte-identical
opaque payload — and the untouched remainder. -/
theorem protocol_payload_roundtrip (era_id : EraId) (payload : List Nat)
    (rest : List SerdeToken) :
    ConsensusMessage.deserialize
        (ConsensusMessage.serialize (ConsensusMessage.Protocol era_id payload) ++ rest) =
      some (ConsensusMessage.Protocol era_id payload, rest) := rfl

/-- Modelled from the spec: serialization of a `u32` under
`casper_types::bytesrepr` (the crate belongs to the repository but is not
under src/): four bytes, little endian. Bytes are modelled as `Nat` values
below 256. -/
def u32_to_bytes (n : Nat) : List Nat :=
  [n % 256, n / 256 % 256, n / 65536 % 256, n / 16777216 % 256]

/-- Modelled from the spec: deserialization of a `u32` under `bytesrepr`:
consumes four little-endian bytes and returns the remainder; fails on shorter
input. -/
def u32_from_bytes : List Nat → Option (Nat × List Nat)
  | b0 :: b1 :: b2 :: b3 :: rest => some (b0 + 256 * b1 + 65536 * b2 + 16777216 * b3, rest)
  | _ => none

/-- Serialized length of a `u32` under `bytesrepr`: four bytes. -/
def U32_SERIALIZED_LENGTH : Nat := 4

/-- Modelled from the spec: the element portion of a `Vec<u32>` under
`bytesrepr`: the concatenation of the serializations of the elements in
order. -/
def u32_list_to_bytes : List Nat → List Nat
  | [] => []
  | x :: xs => u32_to_bytes x ++ u32_list_to_bytes xs

/-- Modelled from the spec: reading a given number of consecutive `u32` values
under `bytesrepr`. -/
def u32_list_from_bytes : Nat → List Nat → Option (List Nat × List Nat)
  | 0, bs => some ([], bs)
  | n + 1, bs =>
      match u32_from_bytes bs with
      | none => none
      | some (x, bs) =>
          match u32_list_from_bytes n bs with
          | none => none
          | some (xs, bs) => some (x :: xs, bs)

/-- Modelled from the spec: serialization of a `Vec<u32>` under `bytesrepr`:
the length as a `u32` prefix, followed by the elements. -/
def vec_u32_to_bytes (l : List Nat) : List Nat :=
  u32_to_bytes l.length ++ u32_list_to_bytes l

/-- Modelled from the spec: deserialization of a `Vec<u32>` under `bytesrepr`:
reads the `u32` length prefix, then that many elements. -/
def vec_u32_from_bytes (bs : List Nat) : Option (List Nat × List Nat) :=
  match u32_from_bytes bs with
  | none => none
  | some (len, bs) => u32_list_from_bytes len bs

/-- Modelled from the spec: serialized length of a `Vec<u32>` under
`bytesrepr`: the length prefix plus four bytes per element. -/
def vec_u32_serialized_length (l : List Nat) : Nat :=
  U32_SERIALIZED_LENGTH + 4 * l.length

theorem u32_from_to_bytes (n : Nat) (h : n < 4294967296) (rest : List Nat) :
    u32_from_bytes (u32_to_bytes n ++ rest) = some (n, rest) := by
  simp only [u32_to_bytes, List.cons_append, List.nil_append, u32_from_bytes,
    Option.some.injEq, Prod.mk.injEq, and_true]
  omega

theorem u32_list_from_to_bytes (l : List Nat) (h : ∀ x ∈ l, x < 4294967296)
    (rest : List Nat) :
    u32_list_from_bytes l.length (u32_list_to_bytes l ++ rest) = some (l, rest) := by
  induction l with
  | nil => rfl
  | cons x xs ih =>
      have hx : x < 4294967296 := h x (List.mem_cons_self x xs)
      have hxs : ∀ y ∈ xs, y < 4294967296 := fun y hy => h y (List.mem_cons_of_mem x hy)
      simp only [List.length_cons, u32_list_to_bytes, List.append_assoc, u32_list_from_bytes,
        u32_from_to_bytes x hx, ih hxs]

theorem vec_u32_from_to_bytes (l : List Nat) (hlen : l.length < 4294967296)
    (h : ∀ x ∈ l, x < 4294967296) (rest : List Nat) :
    vec_u32_from_bytes (vec_u32_to_bytes l ++ rest) = some (l, rest) := by
  simp only [vec_u32_to_bytes, vec_u32_from_bytes, List.append_assoc,
    u32_from_to_bytes l.length hlen, u32_list_from_to_bytes l h rest]

theorem u32_to_bytes_length (n : Nat) : (u32_to_bytes n).length = U32_SERIALIZED_LENGTH := rfl

theorem u32_list_to_bytes_length (l : List Nat) :
    (u32_list_to_bytes l).length = 4 * l.length := by
  induction l with
  | nil => rfl
  | cons x xs ih =>
      simp only [u32_list_to_bytes, List.length_append, u32_to_bytes_length,
        U32_SERIALIZED_LENGTH, ih, List.length_cons]
      omega

theorem vec_u32_to_bytes_length (l : List Nat) :
    (vec_u32_to_bytes l).length = vec_u32_serialized_length l := by
  simp only [vec_u32_to_bytes, vec_u32_serialized_length, List.length_append,
    u32_to_bytes_length, u32_list_to_bytes_length]

/-- `HostFunction` (host_function_costs.rs lines 13-20): a host function cost
entry with a flat cost (`cost: u32`) and per-argument byte weights
(`arguments: Vec<u32>`). Modelled with `Nat` fields; the `u32` bounds are
tracked by `HostFunction.wf`. -/
structure HostFunction where
  cost : Nat
  arguments : List Nat
  deriving DecidableEq

/-- Well-formedness capturing the Rust types: the cost and every argument
weight fit in a `u32`, and the argument count fits in the `u32` length prefix
of the serialized vector. Every Rust `HostFunction` value satisfies this. -/
def HostFunction.wf (h : HostFunction) : Prop :=
  h.cost < 4294967296 ∧ h.arguments.length < 4294967296 ∧
    ∀ x ∈ h.arguments, x < 4294967296

instance (h : HostFunction) : Decidable h.wf := by
  unfold HostFunction.wf
  exact inferInstance

/-- `DEFAULT_FIXED_COST` (host_function_costs.rs line 7). -/
def DEFAULT_FIXED_COST : Nat := 0

/-- `HostFunction::fixed` (host_function_costs.rs lines 29-34): a cost entry
with the given flat cost and an empty argument vector. -/
def HostFunction.fixed (cost : Nat) : HostFunction :=
  { cost := cost, arguments := [] }

/-- `HostFunction::default` (host_function_costs.rs lines 22-26):
`HostFunction::fixed(DEFAULT_FIXED_COST)`. -/
def HostFunction.default : HostFunction :=
  HostFunction.fixed DEFAULT_FIXED_COST

/-- `ToBytes for HostFunction` (host_function_costs.rs lines 46-52): the cost
bytes followed by the argument-vector bytes. The underlying `bytesrepr`
primitives cannot fail, so the result is total. -/
def HostFunction.to_bytes (h : HostFunction) : List Nat :=
  u32_to_bytes h.cost ++ vec_u32_to_bytes h.arguments

/-- `HostFunction::serialized_length` (host_function_costs.rs lines 54-56). -/
def HostFunction.serialized_length (h : HostFunction) : Nat :=
  U32_SERIALIZED_LENGTH + vec_u32_serialized_length h.arguments

/-- `FromBytes for HostFunction` (host_function_costs.rs lines 59-65): reads
the cost, then the argument vector, returning the remainder. -/
def HostFunction.from_bytes (bs : List Nat) : Option (HostFunction × List Nat) :=
  match u32_from_bytes bs with
  | none => none
  | some (cost, bs) =>
      match vec_u32_from_bytes bs with
      | none => none
      | some (arguments, bs) => some ({ cost := cost, arguments := arguments }, bs)

theorem hostFunction_from_to_bytes (h : HostFunction) (hw : h.wf) (rest : List Nat) :
    HostFunction.from_bytes (h.to_bytes ++ rest) = some (h, rest) := by
  obtain ⟨h1, h2, h3⟩ := hw
  simp only [HostFunction.to_bytes, HostFunction.from_bytes, List.append_assoc,
    u32_from_to_bytes h.cost h1, vec_u32_from_to_bytes h.arguments h2 h3 rest]

theorem hostFunction_to_bytes_length (h : HostFunction) :
    h.to_bytes.length = h.serialized_length := by
  simp only [HostFunction.to_bytes, HostFunction.serialized_length, List.length_append,
    u32_to_bytes_length, vec_u32_to_bytes_length]

/-- C8: for every (well-formed, i.e. `u32`-bounded) `HostFunction` value and
every byte suffix, serialization succeeds with a byte vector whose length
equals `serialized_length`, and deserialization of that byte vector followed
by the suffix returns the original value and exactly the suffix. -/
theorem hostFunction_serialization_roundtrip (h : HostFunction) (rest : List Nat)
    (hw : h.wf) :
    h.to_bytes.length = h.serialized_length ∧
    HostFunction.from_bytes (h.to_bytes ++ rest) = some (h, rest) :=
  ⟨hostFunction_to_bytes_length h, hostFunction_from_to_bytes h hw rest⟩

/-- Witness for C8 at a concrete cost entry with two argument weights and a
two-byte remainder. -/
theorem hostFunction_serialization_roundtrip_witness :
    (HostFunction.to_bytes { cost := 7, arguments := [1, 2] }).length =
        HostFunction.serialized_length { cost := 7, arguments := [1, 2] } ∧
      HostFunction.from_bytes
          (HostFunction.to_bytes { cost := 7, arguments := [1, 2] } ++ [9, 9]) =
        some ({ cost := 7, arguments := [1, 2] }, [9, 9]) :=
  hostFunction_serialization_roundtrip { cost := 7, arguments := [1, 2] } [9, 9]
    (by decide)

/-- `HostFunctionCosts` (host_function_costs.rs lines 67-111): the table of
per-host-function cost entries, one `HostFunction` per supported host
function, 42 fields in declaration order from `read_value` to `print`. -/
structure HostFunctionCosts where
  read_value : HostFunction
  read_value_local : HostFunction
  write : HostFunction
  write_local : HostFunction
  add : HostFunction
  add_local : HostFunction
  new_uref : HostFunction
  load_named_keys : HostFunction
  ret : HostFunction
  get_key : HostFunction
  has_key : HostFunction
  put_key : HostFunction
  remove_key : HostFunction
  revert : HostFunction
  is_valid_uref : HostFunction
  add_associated_key : HostFunction
  remove_associated_key : HostFunction
  update_associated_key : HostFunction
  set_action_threshold : HostFunction
  get_caller : HostFunction
  get_blocktime : HostFunction
  create_purse : HostFunction
  transfer_to_account : HostFunction
  transfer_from_purse_to_account : HostFunction
  transfer_from_purse_to_purse : HostFunction
  get_balance : HostFunction
  get_phase : HostFunction
  get_system_contract : HostFunction
  get_main_purse : HostFunction
  read_host_buffer : HostFunction
  create_contract_package_at_hash : HostFunction
  create_contract_user_group : HostFunction
  add_contract_version : HostFunction
  disable_contract_version : HostFunction
  call_contract : HostFunction
  call_versioned_contract : HostFunction
  get_named_arg_size : HostFunction
  get_named_arg : HostFunction
  remove_contract_user_group : HostFunction
  provision_contract_user_group_uref : HostFunction
  remove_contract_user_group_urefs : HostFunction
  print : HostFunction
  deriving DecidableEq

/-- `Default for HostFunctionCosts` (derived, host_function_costs.rs line 67):
every field is `HostFunction::default()`. -/
def HostFunctionCosts.default : HostFunctionCosts :=
  { read_value := HostFunction.default,
    read_value_local := HostFunction.default,
    write := HostFunction.default,
    write_local := HostFunction.default,
    add := HostFunction.default,
    add_local := HostFunction.default,
    new_uref := HostFunction.default,
    load_named_keys := HostFunction.default,
    ret := HostFunction.default,
    get_key := HostFunction.default,
    has_key := HostFunction.default,
    put_key := HostFunction.default,
    remove_key := HostFunction.default,
    revert := HostFunction.default,
    is_valid_uref := HostFunction.default,
    add_associated_key := HostFunction.default,
    remove_associated_key := HostFunction.default,
    update_associated_key := HostFunction.default,
    set_action_threshold := HostFunction.default,
    get_caller := HostFunction.default,
    get_blocktime := HostFunction.default,
    create_purse := HostFunction.default,
    transfer_to_account := HostFunction.default,
    transfer_from_purse_to_account := HostFunction.default,
    transfer_from_purse_to_purse := HostFunction.default,
    get_balance := HostFunction.default,
    get_phase := HostFunction.default,
    get_system_contract := HostFunction.default,
    get_main_purse := HostFunction.default,
    read_host_buffer := HostFunction.default,
    create_contract_package_at_hash := HostFunction.default,
    create_contract_user_group := HostFunction.default,
    add_contract_version := HostFunction.default,
    disable_contract_version := HostFunction.default,
    call_contract := HostFunction.default,
    call_versioned_contract := HostFunction.default,
    get_named_arg_size := HostFunction.default,
    get_named_arg := HostFunction.default,
    remove_contract_user_group := HostFunction.default,
    provision_contract_user_group_uref := HostFunction.default,
    remove_contract_user_group_urefs := HostFunction.default,
    print := HostFunction.default }

/-- `ToBytes for HostFunctionCosts` (host_function_costs.rs lines 114-159):
appends the serializations of the 42 fields in declaration order,
`read_value` first and `print` last. -/
def HostFunctionCosts.to_bytes (c : HostFunctionCosts) : List Nat :=
  c.read_value.to_bytes ++
    c.read_value_local.to_bytes ++
    c.write.to_bytes ++
    c.write_local.to_bytes ++
    c.add.to_bytes ++
    c.add_local.to_bytes ++
    c.new_uref.to_bytes ++
    c.load_named_keys.to_bytes ++
    c.ret.to_bytes ++
    c.get_key.to_bytes ++
    c.has_key.to_bytes ++
    c.put_key.to_bytes ++
    c.remove_key.to_bytes ++
    c.revert.to_bytes ++
    c.is_valid_uref.to_bytes ++
    c.add_associated_key.to_bytes ++
    c.remove_associated_key.to_bytes ++
    c.update_associated_key.to_bytes ++
    c.set_action_threshold.to_bytes ++
    c.get_caller.to_bytes ++
    c.get_blocktime.to_bytes ++
    c.create_purse.to_bytes ++
    c.transfer_to_account.to_bytes ++
    c.transfer_from_purse_to_account.to_bytes ++
    c.transfer_from_purse_to_purse.to_bytes ++
    c.get_balance.to_bytes ++
    c.get_phase.to_bytes ++
    c.get_system_contract.to_bytes ++
    c.get_main_purse.to_bytes ++
    c.read_host_buffer.to_bytes ++
    c.create_contract_package_at_hash.to_bytes ++
    c.create_contract_user_group.to_bytes ++
    c.add_contract_version.to_bytes ++
    c.disable_contract_version.to_bytes ++
    c.call_contract.to_bytes ++
    c.call_versioned_contract.to_bytes ++
    c.get_named_arg_size.to_bytes ++
    c.get_named_arg.to_bytes ++
    c.remove_contract_user_group.to_bytes ++
    c.provision_contract_user_group_uref.to_bytes ++
    c.remove_contract_user_group_urefs.to_bytes ++
    c.print.to_bytes

/-- `HostFunctionCosts::serialized_length` (host_function_costs.rs lines
161-204): the sum of the serialized lengths of the 42 fields. -/
def HostFunctionCosts.serialized_length (c : HostFunctionCosts) : Nat :=
  c.read_value.serialized_length +
    c.read_value_local.serialized_length +
    c.write.serialized_length +
    c.write_local.serialized_length +
    c.add.serialized_length +
    c.add_local.serialized_length +
    c.new_uref.serialized_length +
    c.load_named_keys.serialized_length +
    c.ret.serialized_length +
    c.get_key.serialized_length +
    c.has_key.serialized_length +
    c.put_key.serialized_length +
    c.remove_key.serialized_length +
    c.revert.serialized_length +
    c.is_valid_uref.serialized_length +
    c.add_associated_key.serialized_length +
    c.remove_associated_key.serialized_length +
    c.update_associated_key.serialized_length +
    c.set_action_threshold.serialized_length +
    c.get_caller.serialized_length +
    c.get_blocktime.serialized_length +
    c.create_purse.serialized_length +
    c.transfer_to_account.serialized_length +
    c.transfer_from_purse_to_account.serialized_length +
    c.transfer_from_purse_to_purse.serialized_length +
    c.get_balance.serialized_length +
    c.get_phase.serialized_length +
    c.get_system_contract.serialized_length +
    c.get_main_purse.serialized_length +
    c.read_host_buffer.serialized_length +
    c.create_contract_package_at_hash.serialized_length +
    c.create_contract_user_group.serialized_length +
    c.add_contract_version.serialized_length +
    c.disable_contract_version.serialized_length +
    c.call_contract.serialized_length +
    c.call_versioned_contract.serialized_length +
    c.get_named_arg_size.serialized_length +
    c.get_named_arg.serialized_length +
    c.remove_contract_user_group.serialized_length +
    c.provision_contract_user_group_uref.serialized_length +
    c.remove_contract_user_group_urefs.serialized_length +
    c.print.serialized_length

/-- `FromBytes for HostFunctionCosts` (host_function_costs.rs lines 207-298):
reads the 42 fields in declaration order, `read_value` first and `print`
last, threading the remainder through each read. -/
def HostFunctionCosts.from_bytes (bs : List Nat) : Option (HostFunctionCosts × List Nat) :=
  match HostFunction.from_bytes bs with
  | none => none
  | some (read_value, bs) =>
    match HostFunction.from_bytes bs with
    | none => none
    | some (read_value_local, bs) =>
      match HostFunction.from_bytes bs with
      | none => none
      | some (write, bs) =>
        match HostFunction.from_bytes bs with
        | none => none
        | some (write_local, bs) =>
          match HostFunction.from_bytes bs with
          | none => none
          | some (add, bs) =>
            match HostFunction.from_bytes bs with
            | none => none
            | some (add_local, bs) =>
              match HostFunction.from_bytes bs with
              | none => none
              | some (new_uref, bs) =>
                match HostFunction.from_bytes bs with
                | none => none
                | some (load_named_keys, bs) =>
                  match HostFunction.from_bytes bs with
                  | none => none
                  | some (ret, bs) =>
                    match HostFunction.from_bytes bs with
                    | none => none
                    | some (get_key, bs) =>
                      match HostFunction.from_bytes bs with
                      | none => none
                      | some (has_key, bs) =>
                        match HostFunction.from_bytes bs with
                        | none => none
                        | some (put_key, bs) =>
                          match HostFunction.from_bytes bs with
                          | none => none
                          | some (remove_key, bs) =>
                            match HostFunction.from_bytes bs with
                            | none => none
                            | some (revert, bs) =>
                              match HostFunction.from_bytes bs with
                              | none => none
                              | some (is_valid_uref, bs) =>
                                match HostFunction.from_bytes bs with
                                | none => none
                                | some (add_associated_key, bs) =>
                                  match HostFunction.from_bytes bs with
                                  | none => none
                                  | some (remove_associated_key, bs) =>
                                    match HostFunction.from_bytes bs with
                                    | none => none
                                    | some (update_associated_key, bs) =>
                                      match HostFunction.from_bytes bs with
                                      | none => none
                                      | some (set_action_threshold, bs) =>
                                        match HostFunction.from_bytes bs with
                                        | none => none
                                        | some (get_caller, bs) =>
                                          match HostFunction.from_bytes bs with
                                          | none => none
                                          | some (get_blocktime, bs) =>
                                            match HostFunction.from_bytes bs with
                                            | none => none
                                            | some (create_purse, bs) =>
                                              match HostFunction.from_bytes bs with
                                              | none => none
                                              | some (transfer_to_account, bs) =>
                                                match HostFunction.from_bytes bs with
                                                | none => none
                                                | some (transfer_from_purse_to_account, bs) =>
                                                  match HostFunction.from_bytes bs with
                                                  | none => none
                                                  | some (transfer_from_purse_to_purse, bs) =>
                                                    match HostFunction.from_bytes bs with
                                                    | none => none
                                                    | some (get_balance, bs) =>
                                                      match HostFunction.from_bytes bs with
                                                      | none => none
                                                      | some (get_phase, bs) =>
                                                        match HostFunction.from_bytes bs with
                                                        | none => none
                                                        | some (get_system_contract, bs) =>
                                                          match HostFunction.from_bytes bs with
                                                          | none => none
                                                          | some (get_main_purse, bs) =>
                                                            match HostFunction.from_bytes bs with
                                                            | none => none
                                                            | some (read_host_buffer, bs) =>
                                                              match HostFunction.from_bytes bs with
                                                              | none => none
                                                              | some (create_contract_package_at_hash, bs) =>
                                                                match HostFunction.from_bytes bs with
                                                                | none => none
                                                                | some (create_contract_user_group, bs) =>
                                                                  match HostFunction.from_bytes bs with
                                                                  | none => none
                                                                  | some (add_contract_version, bs) =>
                                                                    match HostFunction.from_bytes bs with
                                                                    | none => none
                                                                    | some (disable_contract_version, bs) =>
                                                                      match HostFunction.from_bytes bs with
                                                                      | none => none
                                                                      | some (call_contract, bs) =>
                                                                        match HostFunction.from_bytes bs with
                                                                        | none => none
                                                                        | some (call_versioned_contract, bs) =>
                                                                          match HostFunction.from_bytes bs with
                                                                          | none => none
                                                                          | some (get_named_arg_size, bs) =>
                                                                            match HostFunction.from_bytes bs with
                                                                            | none => none
                                                                            | some (get_named_arg, bs) =>
                                                                              match HostFunction.from_bytes bs with
                                                                              | none => none
                                                                              | some (remove_contract_user_group, bs) =>
                                                                                match HostFunction.from_bytes bs with
                                                                                | none => none
                                                                                | some (provision_contract_user_group_uref, bs) =>
                                                                                  match HostFunction.from_bytes bs with
                                                                                  | none => none
                                                                                  | some (remove_contract_user_group_urefs, bs) =>
                                                                                    match HostFunction.from_bytes bs with
                                                                                    | none => none
                                                                                    | some (print, bs) =>
                                                                                      some (
                                                                                        { read_value := read_value,
                                                                                          read_value_local := read_value_local,
                                                                                          write := write,
                                                                                          write_local := write_local,
                                                                                          add := add,
                                                                                          add_local := add_local,
                                                                                          new_uref := new_uref,
                                                                                          load_named_keys := load_named_keys,
                                                                                          ret := ret,
                                                                                          get_key := get_key,
                                                                                          has_key := has_key,
                                                                                          put_key := put_key,
                                                                                          remove_key := remove_key,
                                                                                          revert := revert,
                                                                                          is_valid_uref := is_valid_uref,
                                                                                          add_associated_key := add_associated_key,
                                                                                          remove_associated_key := remove_associated_key,
                                                                                          update_associated_key := update_associated_key,
                                                                                          set_action_threshold := set_action_threshold,
                                                                                          get_caller := get_caller,
                                                                                          get_blocktime := get_blocktime,
                                                                                          create_purse := create_purse,
                                                                                          transfer_to_account := transfer_to_account,
                                                                                          transfer_from_purse_to_account := transfer_from_purse_to_account,
                                                                                          transfer_from_purse_to_purse := transfer_from_purse_to_purse,
                                                                                          get_balance := get_balance,
                                                                                          get_phase := get_phase,
                                                                                          get_system_contract := get_system_contract,
                                                                                          get_main_purse := get_main_purse,
                                                                                          read_host_buffer := read_host_buffer,
                                                                                          create_contract_package_at_hash := create_contract_package_at_hash,
                                                                                          create_contract_user_group := create_contract_user_group,
                                                                                          add_contract_version := add_contract_version,
                                                                                          disable_contract_version := disable_contract_version,
                                                                                          call_contract := call_contract,
                                                                                          call_versioned_contract := call_versioned_contract,
                                                                                          get_named_arg_size := get_named_arg_size,
                                                                                          get_named_arg := get_named_arg,
                                                                                          remove_contract_user_group := remove_contract_user_group,
                                                                                          provision_contract_user_group_uref := provision_contract_user_group_uref,
                                                                                          remove_contract_user_group_urefs := remove_contract_user_group_urefs,
                                                                                          print := print },
                                                                                        bs)

/-- Well-formedness of a cost table: every entry is a well-formed (that is,
`u32`-bounded) `HostFunction`; every Rust value satisfies this. -/
def HostFunctionCosts.wf (c : HostFunctionCosts) : Prop :=
  c.read_value.wf ∧
    c.read_value_local.wf ∧
    c.write.wf ∧
    c.write_local.wf ∧
    c.add.wf ∧
    c.add_local.wf ∧
    c.new_uref.wf ∧
    c.load_named_keys.wf ∧
    c.ret.wf ∧
    c.get_key.wf ∧
    c.has_key.wf ∧
    c.put_key.wf ∧
    c.remove_key.wf ∧
    c.revert.wf ∧
    c.is_valid_uref.wf ∧
    c.add_associated_key.wf ∧
    c.remove_associated_key.wf ∧
    c.update_associated_key.wf ∧
    c.set_action_threshold.wf ∧
    c.get_caller.wf ∧
    c.get_blocktime.wf ∧
    c.create_purse.wf ∧
    c.transfer_to_account.wf ∧
    c.transfer_from_purse_to_account.wf ∧
    c.transfer_from_purse_to_purse.wf ∧
    c.get_balance.wf ∧
    c.get_phase.wf ∧
    c.get_system_contract.wf ∧
    c.get_main_purse.wf ∧
    c.read_host_buffer.wf ∧
    c.create_contract_package_at_hash.wf ∧
    c.create_contract_user_group.wf ∧
    c.add_contract_version.wf ∧
    c.disable_contract_version.wf ∧
    c.call_contract.wf ∧
    c.call_versioned_contract.wf ∧
    c.get_named_arg_size.wf ∧
    c.get_named_arg.wf ∧
    c.remove_contract_user_group.wf ∧
    c.provision_contract_user_group_uref.wf ∧
    c.remove_contract_user_group_urefs.wf ∧
    c.print.wf

instance (c : HostFunctionCosts) : Decidable c.wf := by
  unfold HostFunctionCosts.wf
  exact inferInstance

theorem hostFunctionCosts_from_to_bytes (c : HostFunctionCosts) (hw : c.wf)
    (rest : List Nat) :
    HostFunctionCosts.from_bytes (c.to_bytes ++ rest) = some (c, rest) := by
  obtain ⟨h1, h2, h3, h4, h5, h6, h7, h8, h9, h10, h11, h12, h13, h14, h15, h16, h17, h18, h19, h20, h21, h22, h23, h24, h25, h26, h27, h28, h29, h30, h31, h32, h33, h34, h35, h36, h37, h38, h39, h40, h41, h42⟩ := hw
  simp only [HostFunctionCosts.to_bytes, HostFunctionCosts.from_bytes, List.append_assoc,
    hostFunction_from_to_bytes c.read_value h1,
    hostFunction_from_to_bytes c.read_value_local h2,
    hostFunction_from_to_bytes c.write h3,
    hostFunction_from_to_bytes c.write_local h4,
    hostFunction_from_to_bytes c.add h5,
    hostFunction_from_to_bytes c.add_local h6,
    hostFunction_from_to_bytes c.new_uref h7,
    hostFunction_from_to_bytes c.load_named_keys h8,
    hostFunction_from_to_bytes c.ret h9,
    hostFunction_from_to_bytes c.get_key h10,
    hostFunction_from_to_bytes c.has_key h11,
    hostFunction_from_to_bytes c.put_key h12,
    hostFunction_from_to_bytes c.remove_key h13,
    hostFunction_from_to_bytes c.revert h14,
    hostFunction_from_to_bytes c.is_valid_uref h15,
    hostFunction_from_to_bytes c.add_associated_key h16,
    hostFunction_from_to_bytes c.remove_associated_key h17,
    hostFunction_from_to_bytes c.update_associated_key h18,
    hostFunction_from_to_bytes c.set_action_threshold h19,
    hostFunction_from_to_bytes c.get_caller h20,
    hostFunction_from_to_bytes c.get_blocktime h21,
    hostFunction_from_to_bytes c.create_purse h22,
    hostFunction_from_to_bytes c.transfer_to_account h23,
    hostFunction_from_to_bytes c.transfer_from_purse_to_account h24,
    hostFunction_from_to_bytes c.transfer_from_purse_to_purse h25,
    hostFunction_from_to_bytes c.get_balance h26,
    hostFunction_from_to_bytes c.get_phase h27,
    hostFunction_from_to_bytes c.get_system_contract h28,
    hostFunction_from_to_bytes c.get_main_purse h29,
    hostFunction_from_to_bytes c.read_host_buffer h30,
    hostFunction_from_to_bytes c.create_contract_package_at_hash h31,
    hostFunction_from_to_bytes c.create_contract_user_group h32,
    hostFunction_from_to_bytes c.add_contract_version h33,
    hostFunction_from_to_bytes c.disable_contract_version h34,
    hostFunction_from_to_bytes c.call_contract h35,
    hostFunction_from_to_bytes c.call_versioned_contract h36,
    hostFunction_from_to_bytes c.get_named_arg_size h37,
    hostFunction_from_to_bytes c.get_named_arg h38,
    hostFunction_from_to_bytes c.remove_contract_user_group h39,
    hostFunction_from_to_bytes c.provision_contract_user_group_uref h40,
    hostFunction_from_to_bytes c.remove_contract_user_group_urefs h41,
    hostFunction_from_to_bytes c.print h42]

theorem hostFunctionCosts_to_bytes_length (c : HostFunctionCosts) :
    c.to_bytes.length = c.serialized_length := by
  simp only [HostFunctionCosts.to_bytes, HostFunctionCosts.serialized_length,
    List.length_append, hostFunction_to_bytes_length]

/-- C9: `from_bytes` reads the 42 `HostFunction` fields in exactly the order
`to_bytes` writes them (`read_value` first, `print` last), so for every
(well-formed, i.e. `u32`-bounded) cost table and every byte suffix,
deserializing the serialization followed by the suffix returns the original
table and exactly the suffix, and the serialization length equals
`serialized_length`. -/
theorem hostFunctionCosts_serialization_roundtrip (c : HostFunctionCosts)
    (rest : List Nat) (hw : c.wf) :
    c.to_bytes.length = c.serialized_length ∧
    HostFunctionCosts.from_bytes (c.to_bytes ++ rest) = some (c, rest) :=
  ⟨hostFunctionCosts_to_bytes_length c, hostFunctionCosts_from_to_bytes c hw rest⟩

/-- Witness for C9 at the default cost table with a one-byte remainder. -/
theorem hostFunctionCosts_serialization_roundtrip_witness :
    (HostFunctionCosts.to_bytes HostFunctionCosts.default).length =
        HostFunctionCosts.serialized_length HostFunctionCosts.default ∧
      HostFunctionCosts.from_bytes
          (HostFunctionCosts.to_bytes HostFunctionCosts.default ++ [5]) =
        some (HostFunctionCosts.default, [5]) :=
  hostFunctionCosts_serialization_roundtrip HostFunctionCosts.default [5] (by decide)

/-- C10: `HostFunction::default()` equals `HostFunction::fixed(0)`, a cost
entry with cost 0 and an empty argument vector, and every one of the 42
fields of `HostFunctionCosts::default()` charges zero gas with no per-byte
argument weights. -/
theorem hostFunction_default_zero :
    HostFunction.default = HostFunction.fixed 0 ∧
    HostFunction.default.cost = 0 ∧ HostFunction.default.arguments = [] ∧
    (HostFunctionCosts.default.read_value.cost = 0 ∧
      HostFunctionCosts.default.read_value.arguments = []) ∧
    (HostFunctionCosts.default.read_value_local.cost = 0 ∧
      HostFunctionCosts.default.read_value_local.arguments = []) ∧
    (HostFunctionCosts.default.write.cost = 0 ∧
      HostFunctionCosts.default.write.arguments = []) ∧
    (HostFunctionCosts.default.write_local.cost = 0 ∧
      HostFunctionCosts.default.write_local.arguments = []) ∧
    (HostFunctionCosts.default.add.cost = 0 ∧
      HostFunctionCosts.default.add.arguments = []) ∧
    (HostFunctionCosts.default.add_local.cost = 0 ∧
      HostFunctionCosts.default.add_local.arguments = []) ∧
    (HostFunctionCosts.default.new_uref.cost = 0 ∧
      HostFunctionCosts.default.new_uref.arguments = []) ∧
    (HostFunctionCosts.default.load_named_keys.cost = 0 ∧
      HostFunctionCosts.default.load_named_keys.arguments = []) ∧
    (HostFunctionCosts.default.ret.cost = 0 ∧
      HostFunctionCosts.default.ret.arguments = []) ∧
    (HostFunctionCosts.default.get_key.cost = 0 ∧
      HostFunctionCosts.default.get_key.arguments = []) ∧
    (HostFunctionCosts.default.has_key.cost = 0 ∧
      HostFunctionCosts.default.has_key.arguments = []) ∧
    (HostFunctionCosts.default.put_key.cost = 0 ∧
      HostFunctionCosts.default.put_key.arguments = []) ∧
    (HostFunctionCosts.default.remove_key.cost = 0 ∧
      HostFunctionCosts.default.remove_key.arguments = []) ∧
    (HostFunctionCosts.default.revert.cost = 0 ∧
      HostFunctionCosts.default.revert.arguments = []) ∧
    (HostFunctionCosts.default.is_valid_uref.cost = 0 ∧
      HostFunctionCosts.default.is_valid_uref.arguments = []) ∧
    (HostFunctionCosts.default.add_associated_key.cost = 0 ∧
      HostFunctionCosts.default.add_associated_key.arguments = []) ∧
    (HostFunctionCosts.default.remove_associated_key.cost = 0 ∧
      HostFunctionCosts.default.remove_associated_key.arguments = []) ∧
    (HostFunctionCosts.default.update_associated_key.cost = 0 ∧
      HostFunctionCosts.default.update_associated_key.arguments = []) ∧
    (HostFunctionCosts.default.set_action_threshold.cost = 0 ∧
      HostFunctionCosts.default.set_action_threshold.arguments = []) ∧
    (HostFunctionCosts.default.get_caller.cost = 0 ∧
      HostFunctionCosts.default.get_caller.arguments = []) ∧
    (HostFunctionCosts.default.get_blocktime.cost = 0 ∧
      HostFunctionCosts.default.get_blocktime.arguments = []) ∧
    (HostFunctionCosts.default.create_purse.cost = 0 ∧
      HostFunctionCosts.default.create_purse.arguments = []) ∧
    (HostFunctionCosts.default.transfer_to_account.cost = 0 ∧
      HostFunctionCosts.default.transfer_to_account.arguments = []) ∧
    (HostFunctionCosts.default.transfer_from_purse_to_account.cost = 0 ∧
      HostFunctionCosts.default.transfer_from_purse_to_account.arguments = []) ∧
    (HostFunctionCosts.default.transfer_from_purse_to_purse.cost = 0 ∧
      HostFunctionCosts.default.transfer_from_purse_to_purse.arguments = []) ∧
    (HostFunctionCosts.default.get_balance.cost = 0 ∧
      HostFunctionCosts.default.get_balance.arguments = []) ∧
    (HostFunctionCosts.default.get_phase.cost = 0 ∧
      HostFunctionCosts.default.get_phase.arguments = []) ∧
    (HostFunctionCosts.default.get_system_contract.cost = 0 ∧
      HostFunctionCosts.default.get_system_contract.arguments = []) ∧
    (HostFunctionCosts.default.get_main_purse.cost = 0 ∧
      HostFunctionCosts.default.get_main_purse.arguments = []) ∧
    (HostFunctionCosts.default.read_host_buffer.cost = 0 ∧
      HostFunctionCosts.default.read_host_buffer.arguments = []) ∧
    (HostFunctionCosts.default.create_contract_package_at_hash.cost = 0 ∧
      HostFunctionCosts.default.create_contract_package_at_hash.arguments = []) ∧
    (HostFunctionCosts.default.create_contract_user_group.cost = 0 ∧
      HostFunctionCosts.default.create_contract_user_group.arguments = []) ∧
    (HostFunctionCosts.default.add_contract_version.cost = 0 ∧
      HostFunctionCosts.default.add_contract_version.arguments = []) ∧
    (HostFunctionCosts.default.disable_contract_version.cost = 0 ∧
      HostFunctionCosts.default.disable_contract_version.arguments = []) ∧
    (HostFunctionCosts.default.call_contract.cost = 0 ∧
      HostFunctionCosts.default.call_contract.arguments = []) ∧
    (HostFunctionCosts.default.call_versioned_contract.cost = 0 ∧
      HostFunctionCosts.default.call_versioned_contract.arguments = []) ∧
    (HostFunctionCosts.default.get_named_arg_size.cost = 0 ∧
      HostFunctionCosts.default.get_named_arg_size.arguments = []) ∧
    (HostFunctionCosts.default.get_named_arg.cost = 0 ∧
      HostFunctionCosts.default.get_named_arg.arguments = []) ∧
    (HostFunctionCosts.default.remove_contract_user_group.cost = 0 ∧
      HostFunctionCosts.default.remove_contract_user_group.arguments = []) ∧
    (HostFunctionCosts.default.provision_contract_user_group_uref.cost = 0 ∧
      HostFunctionCosts.default.provision_contract_user_group_uref.arguments = []) ∧
    (HostFunctionCosts.default.remove_contract_user_group_urefs.cost = 0 ∧
      HostFunctionCosts.default.remove_contract_user_group_urefs.arguments = []) ∧
    (HostFunctionCosts.default.print.cost = 0 ∧
      HostFunctionCosts.default.print.arguments = []) :=
  ⟨rfl, rfl, rfl, ⟨rfl, rfl⟩, ⟨rfl, rfl⟩, ⟨rfl, rfl⟩, ⟨rfl, rfl⟩, ⟨rfl, rfl⟩, ⟨rfl, rfl⟩, ⟨rfl, rfl⟩, ⟨rfl, rfl⟩, ⟨rfl, rfl⟩, ⟨rfl, rfl⟩, ⟨rfl, rfl⟩, ⟨rfl, rfl⟩, ⟨rfl, rfl⟩, ⟨rfl, rfl⟩, ⟨rfl, rfl⟩, ⟨rfl, rfl⟩, ⟨rfl, rfl⟩, ⟨rfl, rfl⟩, ⟨rfl, rfl⟩, ⟨rfl, rfl⟩, ⟨rfl, rfl⟩, ⟨rfl, rfl⟩, ⟨rfl, rfl⟩, ⟨rfl, rfl⟩, ⟨rfl, rfl⟩, ⟨rfl, rfl⟩, ⟨rfl, rfl⟩, ⟨rfl, rfl⟩, ⟨rfl, rfl⟩, ⟨rfl, rfl⟩, ⟨rfl, rfl⟩, ⟨rfl, rfl⟩, ⟨rfl, rfl⟩, ⟨rfl, rfl⟩, ⟨rfl, rfl⟩, ⟨rfl, rfl⟩, ⟨rfl, rfl⟩, ⟨rfl, rfl⟩, ⟨rfl, rfl⟩, ⟨rfl, rfl⟩, ⟨rfl, rfl⟩, ⟨rfl, rfl⟩⟩

end Casper
